import Mathlib

/-!
Shallow embedding of the account-activation and service-access gating logic
of the myNanny backend (UsersService, AdminService and the Prisma schema
migrations).  Per-user database state is modelled as an `Option UserRec`
(the user row either exists or it does not); every operation of the gate is
a point lookup or point update on a single user, so this captures the
store-level semantics the specification talks about.  Timestamps (`NOW()`)
are modelled as an explicit `Nat` parameter.
-/

namespace MyNanny

/-- Role enum from the schema migration (CREATE TYPE "Role"). -/
inductive Role
  | ADMIN
  | PARENT
  | NANNY
  deriving DecidableEq, Repr

/-- AccountStatus enum from the schema migration (CREATE TYPE "AccountStatus"). -/
inductive AccountStatus
  | PENDING_PAYMENT
  | ACTIVE
  | SUSPENDED
  deriving DecidableEq, Repr

/-- BackgroundStatus enum from the second migration (CREATE TYPE "BackgroundStatus"). -/
inductive BackgroundStatus
  | PENDING
  | PASSED
  | FAILED
  deriving DecidableEq, Repr

/-- Profile row: bio, location, experience are nullable columns; isComplete is
a boolean column whose schema default is false. -/
structure ProfileRec where
  bio : Option String
  location : Option String
  experience : Option Nat
  isComplete : Bool
  deriving DecidableEq, Repr

/-- User row together with its (at most one, via the unique Profile.userId index)
profile.  approvedAt is the nullable TIMESTAMP column added by the second
migration, modelled as an Option Nat. -/
structure UserRec where
  email : String
  password : String
  fullName : String
  role : Role
  accountStatus : AccountStatus
  backgroundStatus : BackgroundStatus
  approvedAt : Option Nat
  profile : Option ProfileRec
  deriving DecidableEq, Repr

/-- Storage-layer error raised by the Prisma client itself.  `recordNotFound`
is Prisma's known request error P2025, raised by `prisma.user.update` when no
row matches the `where` clause. -/
inductive DbError
  | recordNotFound
  deriving DecidableEq, Repr

/-- Error kinds a caller can observe.  `notFound` is NestJS's
NotFoundException, `conflict` ConflictException, `internal`
InternalServerErrorException (the fallback of UsersService.rethrow), and
`storage e` a raw storage-layer error that escaped uncaught (AdminService has
no try/catch, so Prisma errors bubble out of it unmapped). -/
inductive ServiceError
  | notFound
  | conflict
  | internal
  | storage (e : DbError)
  deriving DecidableEq, Repr

/-- Decidable equality of Except results, used to evaluate concrete runs. -/
instance {ε α : Type} [DecidableEq ε] [DecidableEq α] : DecidableEq (Except ε α) := fun a b =>
  match a, b with
  | Except.ok x, Except.ok y =>
    if h : x = y then isTrue (by rw [h]) else isFalse (fun hc => h (Except.ok.inj hc))
  | Except.error x, Except.error y =>
    if h : x = y then isTrue (by rw [h]) else isFalse (fun hc => h (Except.error.inj hc))
  | Except.ok _, Except.error _ => isFalse (fun hc => Except.noConfusion hc)
  | Except.error _, Except.ok _ => isFalse (fun hc => Except.noConfusion hc)

/-- CreateUserProfileDto: all three fields optional. -/
structure CreateUserProfileDto where
  bio : Option String
  location : Option String
  experience : Option Nat
  deriving DecidableEq, Repr

/-- CreateUserDto: email, password, fullName required; profile optional. -/
structure CreateUserDto where
  email : String
  password : String
  fullName : String
  profile : Option CreateUserProfileDto
  deriving DecidableEq, Repr

/-- UpdateUserProfileDto: all three fields optional. -/
structure UpdateUserProfileDto where
  bio : Option String
  location : Option String
  experience : Option Nat
  deriving DecidableEq, Repr

/-- UpdateUserDto: every field optional. -/
structure UpdateUserDto where
  fullName : Option String
  password : Option String
  profile : Option UpdateUserProfileDto
  deriving DecidableEq, Repr

/-- UsersService.createUserWithRole: prisma.user.create with the schema
defaults accountStatus = PENDING_PAYMENT, backgroundStatus = PENDING,
approvedAt = NULL; a nested profile create (when input.profile is present)
writes only bio, location, experience, so isComplete takes its schema
default false.  The duplicate-email Conflict path is not needed by any
claim and is omitted: creation is modelled as the record it produces. -/
def createUserWithRole (input : CreateUserDto) (role : Role) : UserRec :=
  { email := input.email
    password := input.password
    fullName := input.fullName
    role := role
    accountStatus := AccountStatus.PENDING_PAYMENT
    backgroundStatus := BackgroundStatus.PENDING
    approvedAt := none
    profile := input.profile.map fun p =>
      { bio := p.bio, location := p.location, experience := p.experience,
        isComplete := false } }

/-- UsersService.createParent: createUserWithRole with role PARENT. -/
def createParent (input : CreateUserDto) : UserRec :=
  createUserWithRole input Role.PARENT

/-- UsersService.createNanny: createUserWithRole with role NANNY. -/
def createNanny (input : CreateUserDto) : UserRec :=
  createUserWithRole input Role.NANNY

/-- AdminService.approveProfile: findUnique (NotFoundException when the user
is missing); then, when the user has no profile, raw INSERT of a profile with
isComplete = true (bio, location, experience NULL); when a profile exists and
is not complete, raw UPDATE setting isComplete = true; in all cases raw
UPDATE setting approvedAt = NOW() (the `now` parameter); returns the
refreshed user row, which is the new state. -/
def approveProfile (now : Nat) (s : Option UserRec) : Except ServiceError UserRec :=
  match s with
  | none => Except.error ServiceError.notFound
  | some user =>
    let user1 : UserRec :=
      match user.profile with
      | none =>
        { user with profile := some { bio := none, location := none, experience := none, isComplete := true } }
      | some p =>
        if !p.isComplete then
          { user with profile := some { p with isComplete := true } }
        else user
    Except.ok { user1 with approvedAt := some now }

/-- AdminService.activateAfterPayment: a bare prisma.user.update setting
accountStatus = ACTIVE.  AdminService has no try/catch and no error mapping,
so when the user does not exist the Prisma client's record-not-found error
(P2025) propagates raw instead of a NotFoundException. -/
def activateAfterPayment (s : Option UserRec) : Except ServiceError UserRec :=
  match s with
  | none => Except.error (ServiceError.storage DbError.recordNotFound)
  | some u => Except.ok { u with accountStatus := AccountStatus.ACTIVE }

/-- UsersService.setBackgroundStatus: raw UPDATE of backgroundStatus only
(touching zero rows raises nothing), then findUnique; a missing user makes
the read-back return null, so a NotFoundException is thrown and preserved by
rethrow. -/
def setBackgroundStatus (s : Option UserRec) (status : BackgroundStatus) :
    Except ServiceError UserRec :=
  match s with
  | none => Except.error ServiceError.notFound
  | some u => Except.ok { u with backgroundStatus := status }

/-- accountStatus === ACTIVE test of canAccessServices. -/
def isActiveStatus : AccountStatus → Bool
  | AccountStatus.ACTIVE => true
  | _ => false

/-- backgroundStatus === PASSED test of canAccessServices. -/
def isPassedStatus : BackgroundStatus → Bool
  | BackgroundStatus.PASSED => true
  | _ => false

/-- Boolean(user.profile?.isComplete) of canAccessServices: false when there
is no profile, otherwise the profile's isComplete flag. -/
def profileIsComplete : Option ProfileRec → Bool
  | some p => p.isComplete
  | none => false

/-- UsersService.canAccessServices: findUnique plus a raw select of
approvedAt; NotFoundException (preserved by rethrow) when the user is
missing; otherwise the pure conjunction
isActive && hasCompleteProfile && bgPassed && adminApproved,
where adminApproved is Boolean(approvedAt), i.e. approvedAt is non-null.
Read-only: the state is not changed. -/
def canAccessServices (s : Option UserRec) : Except ServiceError Bool :=
  match s with
  | none => Except.error ServiceError.notFound
  | some u =>
    let isActive := isActiveStatus u.accountStatus
    let hasCompleteProfile := profileIsComplete u.profile
    let bgPassed := isPassedStatus u.backgroundStatus
    let adminApproved := u.approvedAt.isSome
    Except.ok (isActive && hasCompleteProfile && bgPassed && adminApproved)

/-- UsersService.updateUser: findUnique (NotFoundException when missing),
then prisma.user.update writing fullName and password only when provided
(?? undefined skips the column), and an upsert on the profile when the DTO
carries one: the create branch writes only bio, location, experience (so
isComplete takes its schema default false); the update branch writes each of
bio, location, experience only when provided and never touches isComplete. -/
def updateUser (s : Option UserRec) (d : UpdateUserDto) : Except ServiceError UserRec :=
  match s with
  | none => Except.error ServiceError.notFound
  | some u =>
    let base : UserRec :=
      { u with fullName := d.fullName.getD u.fullName
               password := d.password.getD u.password }
    match d.profile with
    | none => Except.ok base
    | some pd =>
      match u.profile with
      | none =>
        Except.ok { base with profile := some { bio := pd.bio, location := pd.location, experience := pd.experience, isComplete := false } }
      | some p =>
        let newBio : Option String := match pd.bio with | some b => some b | none => p.bio
        let newLocation : Option String := match pd.location with | some l => some l | none => p.location
        let newExperience : Option Nat := match pd.experience with | some e => some e | none => p.experience
        Except.ok { base with profile := some { bio := newBio, location := newLocation, experience := newExperience, isComplete := p.isComplete } }

/-- UsersService.setAccountActive: prisma.user.update setting accountStatus
= ACTIVE inside try/catch; a missing user makes Prisma raise P2025, which
rethrow maps to InternalServerErrorException (it is not P2002 and not an
HTTP exception). -/
def setAccountActive (s : Option UserRec) : Except ServiceError UserRec :=
  match s with
  | none => Except.error ServiceError.internal
  | some u => Except.ok { u with accountStatus := AccountStatus.ACTIVE }

/-- UsersService.suspend: prisma.user.update setting accountStatus =
SUSPENDED inside try/catch; a missing user surfaces as
InternalServerErrorException via rethrow, as for setAccountActive. -/
def suspend (s : Option UserRec) : Except ServiceError UserRec :=
  match s with
  | none => Except.error ServiceError.internal
  | some u => Except.ok { u with accountStatus := AccountStatus.SUSPENDED }

/-- A concrete freshly-created user: the schema defaults PENDING_PAYMENT,
PENDING, approvedAt NULL, and no profile. -/
def sampleUser : UserRec :=
  { email := "p@example.com"
    password := "pw"
    fullName := "Pat"
    role := Role.PARENT
    accountStatus := AccountStatus.PENDING_PAYMENT
    backgroundStatus := BackgroundStatus.PENDING
    approvedAt := none
    profile := none }

/-- The profile row approveProfile inserts when the user has none. -/
def completedEmptyProfile : ProfileRec :=
  { bio := none, location := none, experience := none, isComplete := true }

/-- The profile state approveProfile leaves behind: the inserted row when
there was none, otherwise the existing row with isComplete forced true. -/
def completeProfile : Option ProfileRec → ProfileRec
  | none => completedEmptyProfile
  | some p => { p with isComplete := true }

/-- A concrete user with every gate dimension satisfied except approvedAt. -/
def activeUnapprovedUser : UserRec :=
  { sampleUser with
    accountStatus := AccountStatus.ACTIVE
    backgroundStatus := BackgroundStatus.PASSED
    profile := some completedEmptyProfile
    approvedAt := none }

/-- The state after approveProfile at time 1 on sampleUser. -/
def approvedOnce : UserRec :=
  { sampleUser with profile := some completedEmptyProfile, approvedAt := some 1 }

/-- An update DTO carrying no change at all. -/
def emptyUpdate : UpdateUserDto := { fullName := none, password := none, profile := none }

/-- A concrete creation input without a profile. -/
def sampleInput : CreateUserDto :=
  { email := "p@example.com", password := "pw", fullName := "Pat", profile := none }

lemma profileRec_eta_complete (p : ProfileRec) (h : p.isComplete = true) :
    ({ p with isComplete := true } : ProfileRec) = p := by
  obtain ⟨b, l, e, c⟩ := p
  subst h
  rfl

lemma completeProfile_isComplete (o : Option ProfileRec) :
    (completeProfile o).isComplete = true := by
  cases o <;> rfl

lemma completeProfile_of_complete (p : ProfileRec) (h : p.isComplete = true) :
    completeProfile (some p) = p :=
  profileRec_eta_complete p h

lemma completeProfile_idem (o : Option ProfileRec) :
    completeProfile (some (completeProfile o)) = completeProfile o :=
  completeProfile_of_complete _ (completeProfile_isComplete o)

lemma approveProfile_some (t : Nat) (u : UserRec) :
    approveProfile t (some u) =
      Except.ok { u with profile := some (completeProfile u.profile), approvedAt := some t } := by
  cases hp : u.profile with
  | none => simp [approveProfile, completeProfile, hp, completedEmptyProfile]
  | some p =>
    cases hc : p.isComplete with
    | false => simp [approveProfile, completeProfile, hp, hc]
    | true => simp [approveProfile, completeProfile, hp, hc, profileRec_eta_complete p hc]

lemma isActiveStatus_true_iff (a : AccountStatus) :
    isActiveStatus a = true ↔ a = AccountStatus.ACTIVE := by
  cases a <;> simp [isActiveStatus]

lemma isPassedStatus_true_iff (b : BackgroundStatus) :
    isPassedStatus b = true ↔ b = BackgroundStatus.PASSED := by
  cases b <;> simp [isPassedStatus]

lemma profileIsComplete_true_iff (o : Option ProfileRec) :
    profileIsComplete o = true ↔ ∃ p, o = some p ∧ p.isComplete = true := by
  cases o <;> simp [profileIsComplete]

lemma createUserWithRole_profile_incomplete (input : CreateUserDto) (role : Role) :
    profileIsComplete (createUserWithRole input role).profile = false := by
  cases hp : input.profile <;> simp [createUserWithRole, hp, profileIsComplete]

lemma updateUser_ok_frame (u : UserRec) (d : UpdateUserDto) (v : UserRec)
    (h : updateUser (some u) d = Except.ok v) :
    profileIsComplete v.profile = profileIsComplete u.profile ∧
    v.approvedAt = u.approvedAt ∧
    v.accountStatus = u.accountStatus ∧
    v.backgroundStatus = u.backgroundStatus := by
  cases hd : d.profile with
  | none =>
    simp [updateUser, hd] at h
    subst h
    exact ⟨rfl, rfl, rfl, rfl⟩
  | some pd =>
    cases hu : u.profile with
    | none =>
      simp [updateUser, hd, hu] at h
      subst h
      simp [profileIsComplete, hu]
    | some p =>
      simp [updateUser, hd, hu] at h
      subst h
      simp [profileIsComplete, hu]

/-- C1: for every existing user, canAccessServices returns true iff the
account status is ACTIVE, a profile exists with isComplete true, the
background status is PASSED and approvedAt is non-null; in particular,
whenever approvedAt is null it returns false regardless of the other
fields. -/
theorem canAccessServices_gate (u : UserRec) :
    (canAccessServices (some u) = Except.ok true ↔
      (u.accountStatus = AccountStatus.ACTIVE ∧
        (∃ p, u.profile = some p ∧ p.isComplete = true) ∧
        u.backgroundStatus = BackgroundStatus.PASSED ∧
        u.approvedAt ≠ none)) ∧
    (u.approvedAt = none → canAccessServices (some u) = Except.ok false) := by
  constructor
  · simp [canAccessServices, Bool.and_eq_true, isActiveStatus_true_iff,
      isPassedStatus_true_iff, profileIsComplete_true_iff, Option.isSome_iff_ne_none,
      and_assoc]
  · intro h
    simp [canAccessServices, h]

/-- Witness for C1: a user that is ACTIVE, background PASSED, with a complete
profile but approvedAt null is denied access. -/
theorem canAccessServices_gate_witness :
    canAccessServices (some activeUnapprovedUser) = Except.ok false :=
  (canAccessServices_gate activeUnapprovedUser).2 rfl

/-- C2 counterexample: calling approveProfile twice (at times 1 then 2) on a
fresh existing user does not yield the same final state as calling it once
at time 1, because the second call overwrites approvedAt with its own
current time. -/
theorem approveProfile_twice_ne_once :
    (approveProfile 1 (some sampleUser)).bind (fun u => approveProfile 2 (some u)) ≠
      approveProfile 1 (some sampleUser) := by decide

/-- C2 (amended): approveProfile is idempotent except for the approval
timestamp: a second call succeeds and changes nothing except approvedAt,
which it overwrites with the second call's current time; when the two calls
carry the same timestamp the final state is literally that of a single
call. -/
theorem approveProfile_second_call (s : Option UserRec) (t1 t2 : Nat) (u1 u2 : UserRec)
    (h1 : approveProfile t1 s = Except.ok u1)
    (h2 : approveProfile t2 (some u1) = Except.ok u2) :
    u2 = { u1 with approvedAt := some t2 } ∧ (t2 = t1 → u2 = u1) := by
  cases s with
  | none => exact absurd h1 (by simp [approveProfile])
  | some u =>
    rw [approveProfile_some] at h1 h2
    injection h1 with h1
    subst h1
    injection h2 with h2
    subst h2
    constructor
    · simp [completeProfile_idem]
    · intro ht
      subst ht
      simp [completeProfile_idem]

/-- Witness for C2's amended theorem: the concrete second call at time 2 on
the user approved at time 1 only moves approvedAt to 2. -/
theorem approveProfile_second_call_witness :
    ({ approvedOnce with approvedAt := some 2 } : UserRec) =
      { approvedOnce with approvedAt := some 2 } :=
  (approveProfile_second_call (some sampleUser) 1 2 approvedOnce
    { approvedOnce with approvedAt := some 2 } rfl rfl).1

/-- C3 counterexample: activateAfterPayment on a missing user does not fail
with NotFound; AdminService has no error mapping, so the storage layer's
record-not-found error escapes unmapped. -/
theorem activateAfterPayment_missing_not_notFound :
    activateAfterPayment (none : Option UserRec) ≠ Except.error ServiceError.notFound := by
  decide

/-- C3 (amended): on a nonexistent user, approveProfile, setBackgroundStatus
and canAccessServices fail with NotFound, while activateAfterPayment fails
with the raw storage-layer record-not-found error instead. -/
theorem gate_ops_missing_user (t : Nat) (st : BackgroundStatus) :
    approveProfile t (none : Option UserRec) = Except.error ServiceError.notFound ∧
    setBackgroundStatus (none : Option UserRec) st = Except.error ServiceError.notFound ∧
    canAccessServices (none : Option UserRec) = Except.error ServiceError.notFound ∧
    activateAfterPayment (none : Option UserRec) =
      Except.error (ServiceError.storage DbError.recordNotFound) :=
  ⟨rfl, rfl, rfl, rfl⟩

/-- C4: activateAfterPayment on every existing user, whatever the prior
account status (including SUSPENDED), returns the user with accountStatus
set to ACTIVE, and that record is the new state. -/
theorem activateAfterPayment_sets_active (u : UserRec) :
    activateAfterPayment (some u) = Except.ok { u with accountStatus := AccountStatus.ACTIVE } :=
  rfl

/-- C5: a user created with status PENDING_PAYMENT, no profile, background
PENDING and no approval cannot access services; after activateAfterPayment,
then setBackgroundStatus PASSED, then approveProfile, access is granted. -/
theorem fresh_user_scenario (u : UserRec) (t : Nat)
    (h1 : u.accountStatus = AccountStatus.PENDING_PAYMENT)
    (h2 : u.profile = none)
    (h3 : u.backgroundStatus = BackgroundStatus.PENDING)
    (h4 : u.approvedAt = none) :
    canAccessServices (some u) = Except.ok false ∧
    ∃ u1 u2 u3,
      activateAfterPayment (some u) = Except.ok u1 ∧
      setBackgroundStatus (some u1) BackgroundStatus.PASSED = Except.ok u2 ∧
      approveProfile t (some u2) = Except.ok u3 ∧
      canAccessServices (some u3) = Except.ok true := by
  refine ⟨?_, { u with accountStatus := AccountStatus.ACTIVE },
    { u with accountStatus := AccountStatus.ACTIVE, backgroundStatus := BackgroundStatus.PASSED },
    { u with accountStatus := AccountStatus.ACTIVE, backgroundStatus := BackgroundStatus.PASSED, profile := some completedEmptyProfile, approvedAt := some t },
    rfl, rfl, ?_, ?_⟩
  · simp [canAccessServices, h1, isActiveStatus]
  · simp [approveProfile_some, h2, completeProfile]
  · rfl

/-- Witness for C5 at the concrete fresh user. -/
theorem fresh_user_scenario_witness :
    canAccessServices (some sampleUser) = Except.ok false :=
  (fresh_user_scenario sampleUser 7 rfl rfl rfl rfl).1

/-- C6: whenever approveProfile succeeds on an existing user, the resulting
state has a profile with isComplete true and approvedAt set to the call's
current time (hence non-null). -/
theorem approveProfile_approves (t : Nat) (u v : UserRec)
    (h : approveProfile t (some u) = Except.ok v) :
    (∃ p, v.profile = some p ∧ p.isComplete = true) ∧ v.approvedAt = some t := by
  rw [approveProfile_some] at h
  injection h with h
  subst h
  exact ⟨⟨completeProfile u.profile, rfl, completeProfile_isComplete u.profile⟩, rfl⟩

/-- Witness for C6: concretely approving sampleUser at time 1 stamps
approvedAt with 1. -/
theorem approveProfile_approves_witness : approvedOnce.approvedAt = some 1 :=
  (approveProfile_approves 1 sampleUser approvedOnce rfl).2

/-- C7: setBackgroundStatus on an existing user overwrites backgroundStatus
with the given value and leaves accountStatus, approvedAt and the profile
(hence isComplete) unchanged. -/
theorem setBackgroundStatus_overwrites (u : UserRec) (st : BackgroundStatus) :
    ∃ v, setBackgroundStatus (some u) st = Except.ok v ∧
      v.backgroundStatus = st ∧ v.accountStatus = u.accountStatus ∧
      v.approvedAt = u.approvedAt ∧ v.profile = u.profile :=
  ⟨{ u with backgroundStatus := st }, rfl, rfl, rfl, rfl, rfl⟩

/-- C8: the isComplete flag is written only by approveProfile: createParent
and createNanny produce profiles with isComplete false (the schema default),
updateUser leaves the flag exactly as it was (false on the profiles it
creates), and setBackgroundStatus, activateAfterPayment, suspend and
setAccountActive do not touch the profile at all. -/
theorem isComplete_only_admin (input : CreateUserDto) (u : UserRec) (d : UpdateUserDto)
    (st : BackgroundStatus) (v1 v2 v3 v4 v5 : UserRec)
    (h1 : updateUser (some u) d = Except.ok v1)
    (h2 : setBackgroundStatus (some u) st = Except.ok v2)
    (h3 : activateAfterPayment (some u) = Except.ok v3)
    (h4 : suspend (some u) = Except.ok v4)
    (h5 : setAccountActive (some u) = Except.ok v5) :
    profileIsComplete (createParent input).profile = false ∧
    profileIsComplete (createNanny input).profile = false ∧
    profileIsComplete v1.profile = profileIsComplete u.profile ∧
    v2.profile = u.profile ∧ v3.profile = u.profile ∧
    v4.profile = u.profile ∧ v5.profile = u.profile := by
  refine ⟨createUserWithRole_profile_incomplete input Role.PARENT,
    createUserWithRole_profile_incomplete input Role.NANNY,
    (updateUser_ok_frame u d v1 h1).1, ?_, ?_, ?_, ?_⟩
  · injection h2 with h
    subst h
    rfl
  · injection h3 with h
    subst h
    rfl
  · injection h4 with h
    subst h
    rfl
  · injection h5 with h
    subst h
    rfl

/-- Witness for C8 at concrete inputs. -/
theorem isComplete_only_admin_witness :
    profileIsComplete (createParent sampleInput).profile = false :=
  (isComplete_only_admin sampleInput sampleUser emptyUpdate BackgroundStatus.PASSED
    sampleUser { sampleUser with backgroundStatus := BackgroundStatus.PASSED }
    { sampleUser with accountStatus := AccountStatus.ACTIVE }
    { sampleUser with accountStatus := AccountStatus.SUSPENDED }
    { sampleUser with accountStatus := AccountStatus.ACTIVE }
    rfl rfl rfl rfl rfl).1

/-- C9: approvedAt is written only by approveProfile, which sets it to the
current time (non-null); activateAfterPayment, setBackgroundStatus,
updateUser, suspend and setAccountActive all leave approvedAt exactly as it
was, so a non-null approvedAt is never cleared by any operation. -/
theorem approvedAt_only_admin (u : UserRec) (t : Nat) (d : UpdateUserDto)
    (st : BackgroundStatus) (v0 v1 v2 v3 v4 v5 : UserRec)
    (h0 : approveProfile t (some u) = Except.ok v0)
    (h1 : activateAfterPayment (some u) = Except.ok v1)
    (h2 : setBackgroundStatus (some u) st = Except.ok v2)
    (h3 : updateUser (some u) d = Except.ok v3)
    (h4 : suspend (some u) = Except.ok v4)
    (h5 : setAccountActive (some u) = Except.ok v5) :
    v0.approvedAt = some t ∧
    v1.approvedAt = u.approvedAt ∧ v2.approvedAt = u.approvedAt ∧
    v3.approvedAt = u.approvedAt ∧ v4.approvedAt = u.approvedAt ∧
    v5.approvedAt = u.approvedAt := by
  rw [approveProfile_some] at h0
  injection h0 with h0
  subst h0
  refine ⟨rfl, ?_, ?_, (updateUser_ok_frame u d v3 h3).2.1, ?_, ?_⟩
  · injection h1 with h
    subst h
    rfl
  · injection h2 with h
    subst h
    rfl
  · injection h4 with h
    subst h
    rfl
  · injection h5 with h
    subst h
    rfl

/-- Witness for C9 at concrete inputs: activateAfterPayment leaves
sampleUser's null approvedAt untouched. -/
theorem approvedAt_only_admin_witness :
    ({ sampleUser with accountStatus := AccountStatus.ACTIVE } : UserRec).approvedAt =
      sampleUser.approvedAt :=
  (approvedAt_only_admin sampleUser 3 emptyUpdate BackgroundStatus.FAILED
    { sampleUser with profile := some completedEmptyProfile, approvedAt := some 3 }
    { sampleUser with accountStatus := AccountStatus.ACTIVE }
    { sampleUser with backgroundStatus := BackgroundStatus.FAILED }
    sampleUser
    { sampleUser with accountStatus := AccountStatus.SUSPENDED }
    { sampleUser with accountStatus := AccountStatus.ACTIVE }
    rfl rfl rfl rfl rfl rfl).2.1

/-- C10: suspend on an existing user sets accountStatus to SUSPENDED and
leaves every other field of the user and its profile unchanged; immediately
afterwards canAccessServices returns false. -/
theorem suspend_blocks_access (u : UserRec) :
    ∃ v, suspend (some u) = Except.ok v ∧
      v.accountStatus = AccountStatus.SUSPENDED ∧
      v.email = u.email ∧ v.password = u.password ∧ v.fullName = u.fullName ∧
      v.role = u.role ∧ v.backgroundStatus = u.backgroundStatus ∧
      v.approvedAt = u.approvedAt ∧ v.profile = u.profile ∧
      canAccessServices (some v) = Except.ok false := by
  exact ⟨{ u with accountStatus := AccountStatus.SUSPENDED },
    rfl, rfl, rfl, rfl, rfl, rfl, rfl, rfl, rfl, rfl⟩

end MyNanny
